import Mathlib

/-!
# Verification of the tracker-edge trailer-monitor environment module

A shallow embedding of `src/environment.cpp`: the per-channel threshold /
hysteresis state machines (`evaluate_user_environment`), the four event
accessors, and the static state they operate on.

Modelling conventions:
* C++ `double` configuration values and sensor readings are modelled as `ℚ`.
  The code only compares readings against thresholds and adds/subtracts the
  hysteresis; no claim depends on floating-point rounding.
* The C++ `size_t` event counters are modelled as `Nat`.  A counter is
  incremented by at most one per tick and the accessors subtract a snapshot
  that never exceeds the counter, so 64-bit wrap-around is unreachable on any
  execution the claims quantify over and unsigned subtraction coincides with
  `Nat` subtraction.
* The process-wide static variables become an explicit record
  (`EnvMonitors` for the four channels, `ConfigData` for the configuration),
  threaded through the functions that the C++ performs by mutation.
-/

/-- The `EnvState` enum of `environment.cpp` (states of one channel monitor). -/
inductive EnvState : Type
  | unknown
  | normal
  | outsideLimit
  | insideLimit
deriving DecidableEq, Repr

/-- The static variables attached to one (channel, direction) monitor:
`highState` / `highEvents` / `highEventsLast` / `highLatch` and their
`low` / `humhigh` / `humlow` counterparts. -/
structure Channel : Type where
  state : EnvState
  events : Nat
  eventsLast : Nat
  latch : Bool
deriving DecidableEq, Repr

/-- Initial values of the per-channel statics
(`environment.cpp` lines 116-123 and 140-147): state `NORMAL`,
counter 0, snapshot 0, latch `false`. -/
def initialChannel : Channel :=
  { state := EnvState.normal, events := 0, eventsLast := 0, latch := false }

/-- The `ConfigData` struct of `environment.cpp`. -/
structure ConfigData : Type where
  highThreshold : ℚ
  highEnable : Bool
  highLatch : Bool
  lowThreshold : ℚ
  lowEnable : Bool
  lowLatch : Bool
  hysteresis : ℚ
  humhighThreshold : ℚ
  humhighEnable : Bool
  humhighLatch : Bool
  humlowThreshold : ℚ
  humlowEnable : Bool
  humlowLatch : Bool
  humhysteresis : ℚ
deriving DecidableEq, Repr

/-- The default configuration `_environmentConfig`, using the constants of
`environment.h` (temperature high 45, low 25, hysteresis 5; humidity high 95,
low 25, hysteresis 5; every channel disabled, every latch mode true). -/
def environmentConfigDefault : ConfigData :=
  { highThreshold := 45, highEnable := false, highLatch := true
  , lowThreshold := 25, lowEnable := false, lowLatch := true
  , hysteresis := 5
  , humhighThreshold := 95, humhighEnable := false, humhighLatch := true
  , humlowThreshold := 25, humlowEnable := false, humlowLatch := true
  , humhysteresis := 5 }

/-- The `Environment` reading struct of `environment.h`. -/
structure Environment : Type where
  Temperature : ℚ
  Humidity : ℚ
deriving DecidableEq, Repr

/-- One high-direction evaluation block of `evaluate_user_environment`
(lines 166-198 for temperature, lines 236-268 for humidity): guarded by the
enable flag; `UNKNOWN` sets the state to `NORMAL` and falls through to the
`NORMAL` case. -/
def evalHigh (threshold hysteresis : ℚ) (enable : Bool) (value : ℚ)
    (c : Channel) : Channel :=
  if enable then
    match c.state with
    | EnvState.unknown =>
        -- fall through into the NORMAL case after setting state to NORMAL
        if value ≥ threshold then
          { c with events := c.events + 1, latch := true, state := EnvState.outsideLimit }
        else
          { c with state := EnvState.normal }
    | EnvState.normal =>
        if value ≥ threshold then
          { c with events := c.events + 1, latch := true, state := EnvState.outsideLimit }
        else
          c
    | EnvState.outsideLimit =>
        if value < threshold then
          { c with state := EnvState.insideLimit }
        else
          c
    | EnvState.insideLimit =>
        if value ≤ threshold - hysteresis then
          { c with latch := false, state := EnvState.normal }
        else if value ≥ threshold then
          { c with state := EnvState.outsideLimit }
        else
          c
  else
    c

/-- One low-direction evaluation block of `evaluate_user_environment`
(lines 201-233 for temperature, lines 271-303 for humidity). -/
def evalLow (threshold hysteresis : ℚ) (enable : Bool) (value : ℚ)
    (c : Channel) : Channel :=
  if enable then
    match c.state with
    | EnvState.unknown =>
        -- fall through into the NORMAL case after setting state to NORMAL
        if value ≤ threshold then
          { c with events := c.events + 1, latch := true, state := EnvState.outsideLimit }
        else
          { c with state := EnvState.normal }
    | EnvState.normal =>
        if value ≤ threshold then
          { c with events := c.events + 1, latch := true, state := EnvState.outsideLimit }
        else
          c
    | EnvState.outsideLimit =>
        if value > threshold then
          { c with state := EnvState.insideLimit }
        else
          c
    | EnvState.insideLimit =>
        if value ≥ threshold + hysteresis then
          { c with latch := false, state := EnvState.normal }
        else if value ≤ threshold then
          { c with state := EnvState.outsideLimit }
        else
          c
  else
    c

/-- The four per-channel static variable groups of `environment.cpp`:
temperature high / temperature low / humidity high / humidity low. -/
structure EnvMonitors : Type where
  high : Channel
  low : Channel
  humhigh : Channel
  humlow : Channel
deriving DecidableEq, Repr

/-- The initial monitor statics: all four channels at `initialChannel`. -/
def initialMonitors : EnvMonitors :=
  { high := initialChannel, low := initialChannel
  , humhigh := initialChannel, humlow := initialChannel }

/-- `evaluate_user_environment` (lines 163-305): run each of the four
evaluation blocks on its channel, the temperature monitors against
`environment.Temperature` and the humidity monitors against
`environment.Humidity`. -/
def evaluate_user_environment (cfg : ConfigData) (environment : Environment)
    (m : EnvMonitors) : EnvMonitors :=
  { high := evalHigh cfg.highThreshold cfg.hysteresis cfg.highEnable
      environment.Temperature m.high
  , low := evalLow cfg.lowThreshold cfg.hysteresis cfg.lowEnable
      environment.Temperature m.low
  , humhigh := evalHigh cfg.humhighThreshold cfg.humhysteresis
      cfg.humhighEnable environment.Humidity m.humhigh
  , humlow := evalLow cfg.humlowThreshold cfg.humhysteresis
      cfg.humlowEnable environment.Humidity m.humlow }

/-- The body shared by the four accessors
(`environment_high_temperature_events`, lines 125-130, and its three
twins): capture the counter, compute the delta from the snapshot, move the
snapshot forward, and return the latch (as 0/1) in latch mode or the delta
otherwise.  Returns the value together with the updated channel. -/
def channelEvents (latchMode : Bool) (c : Channel) : Nat × Channel :=
  let eventsCapture := c.events
  let eventsCount := eventsCapture - c.eventsLast
  let c' := { c with eventsLast := eventsCapture }
  ((if latchMode then (if c.latch then 1 else 0) else eventsCount), c')

/-- `environment_high_temperature_events` (lines 125-130). -/
def environment_high_temperature_events (cfg : ConfigData) (m : EnvMonitors) :
    Nat × EnvMonitors :=
  let r := channelEvents cfg.highLatch m.high
  (r.1, { m with high := r.2 })

/-- `environment_low_temperature_events` (lines 149-154). -/
def environment_low_temperature_events (cfg : ConfigData) (m : EnvMonitors) :
    Nat × EnvMonitors :=
  let r := channelEvents cfg.lowLatch m.low
  (r.1, { m with low := r.2 })

/-- `environment_high_humidity_events` (lines 132-137). -/
def environment_high_humidity_events (cfg : ConfigData) (m : EnvMonitors) :
    Nat × EnvMonitors :=
  let r := channelEvents cfg.humhighLatch m.humhigh
  (r.1, { m with humhigh := r.2 })

/-- `environment_low_humidity_events` (lines 156-161). -/
def environment_low_humidity_events (cfg : ConfigData) (m : EnvMonitors) :
    Nat × EnvMonitors :=
  let r := channelEvents cfg.humlowLatch m.humlow
  (r.1, { m with humlow := r.2 })

/-- The spec's description of an event accessor, written from its words:
compute `delta = counter.current - lastSnapshot`, update
`lastSnapshot = counter.current`, and return either `delta` (latch mode off)
or the current latch value coerced to 0/1 (latch mode on).  Used to compare
the source accessors against the spec (claim C3). -/
def accessorSpec (latchMode : Bool) (c : Channel) : Nat × Channel :=
  ((if latchMode then (if c.latch then 1 else 0) else c.events - c.eventsLast),
   { c with eventsLast := c.events })

/-- C1: for a High-direction monitor with threshold `T` and hysteresis `H`,
an enabled evaluate step makes exactly the claimed transitions: Normal with
`v ≥ T` counts an event, sets the latch and goes to OutsideLimit;
OutsideLimit with `v < T` goes to InsideLimit untouched; InsideLimit goes to
Normal clearing the latch when `v ≤ T - H`, else back to OutsideLimit
(uncounted) when `v ≥ T`; every non-matching case leaves the channel
unchanged. -/
theorem C1_evalHigh_enabled_transitions (T H v : ℚ) (c : Channel) :
    (c.state = EnvState.normal → v ≥ T →
      evalHigh T H true v c =
        { c with events := c.events + 1, latch := true, state := EnvState.outsideLimit }) ∧
    (c.state = EnvState.normal → ¬ v ≥ T → evalHigh T H true v c = c) ∧
    (c.state = EnvState.outsideLimit → v < T →
      evalHigh T H true v c = { c with state := EnvState.insideLimit }) ∧
    (c.state = EnvState.outsideLimit → ¬ v < T → evalHigh T H true v c = c) ∧
    (c.state = EnvState.insideLimit → v ≤ T - H →
      evalHigh T H true v c = { c with latch := false, state := EnvState.normal }) ∧
    (c.state = EnvState.insideLimit → ¬ v ≤ T - H → v ≥ T →
      evalHigh T H true v c = { c with state := EnvState.outsideLimit }) ∧
    (c.state = EnvState.insideLimit → ¬ v ≤ T - H → ¬ v ≥ T →
      evalHigh T H true v c = c) := by
  obtain ⟨s, ev, el, l⟩ := c
  refine ⟨?_, ?_, ?_, ?_, ?_, ?_, ?_⟩ <;> intro hs <;> simp only at hs <;> subst hs
  · intro h; simp [evalHigh, h]
  · intro h; simp [evalHigh, h]
  · intro h; simp [evalHigh, h]
  · intro h; simp [evalHigh, h]
  · intro h; simp [evalHigh, h]
  · intro h1 h2; simp [evalHigh, h1, h2]
  · intro h1 h2; simp [evalHigh, h1, h2]

theorem C1_evalHigh_enabled_transitions_witness :
    evalHigh 45 5 true 46 initialChannel =
      { initialChannel with events := initialChannel.events + 1, latch := true, state := EnvState.outsideLimit } :=
  (C1_evalHigh_enabled_transitions 45 5 46 initialChannel).1 rfl (by norm_num)

/-- C2: for a Low-direction monitor with threshold `T` and hysteresis `H`,
an enabled evaluate step mirrors the High direction (Normal→OutsideLimit when
`v ≤ T` counting an event and setting the latch; OutsideLimit→InsideLimit
when `v > T`; InsideLimit→Normal clearing the latch when `v ≥ T + H`, else
back to OutsideLimit uncounted when `v ≤ T`; otherwise unchanged), and with
`T = 25`, `H = 5` the reading sequence 20, 26, 31 keeps the latch set until
the value reaches at least 30: it is still set after 20, after 26, and after
an alternative third reading 29, and cleared only by the reading 31. -/
theorem C2_evalLow_enabled_transitions (T H v : ℚ) (c : Channel) :
    ((c.state = EnvState.normal → v ≤ T →
       evalLow T H true v c =
         { c with events := c.events + 1, latch := true, state := EnvState.outsideLimit }) ∧
     (c.state = EnvState.normal → ¬ v ≤ T → evalLow T H true v c = c) ∧
     (c.state = EnvState.outsideLimit → v > T →
       evalLow T H true v c = { c with state := EnvState.insideLimit }) ∧
     (c.state = EnvState.outsideLimit → ¬ v > T → evalLow T H true v c = c) ∧
     (c.state = EnvState.insideLimit → v ≥ T + H →
       evalLow T H true v c = { c with latch := false, state := EnvState.normal }) ∧
     (c.state = EnvState.insideLimit → ¬ v ≥ T + H → v ≤ T →
       evalLow T H true v c = { c with state := EnvState.outsideLimit }) ∧
     (c.state = EnvState.insideLimit → ¬ v ≥ T + H → ¬ v ≤ T →
       evalLow T H true v c = c)) ∧
    (([20] : List ℚ).foldl (fun ch w => evalLow 25 5 true w ch) initialChannel).latch = true ∧
    (([20, 26] : List ℚ).foldl (fun ch w => evalLow 25 5 true w ch) initialChannel).latch = true ∧
    (([20, 26, 29] : List ℚ).foldl (fun ch w => evalLow 25 5 true w ch) initialChannel).latch = true ∧
    (([20, 26, 31] : List ℚ).foldl (fun ch w => evalLow 25 5 true w ch) initialChannel).latch = false := by
  refine ⟨?_, ?_, ?_, ?_, ?_⟩
  · obtain ⟨s, ev, el, l⟩ := c
    refine ⟨?_, ?_, ?_, ?_, ?_, ?_, ?_⟩ <;> intro hs <;> simp only at hs <;> subst hs
    · intro h; simp [evalLow, h]
    · intro h; simp [evalLow, h]
    · intro h; simp [evalLow, h]
    · intro h; simp [evalLow, h]
    · intro h; simp [evalLow, h]
    · intro h1 h2; simp [evalLow, h1, h2]
    · intro h1 h2; simp [evalLow, h1, h2]
  · norm_num [evalLow, initialChannel]
  · norm_num [evalLow, initialChannel]
  · norm_num [evalLow, initialChannel]
  · norm_num [evalLow, initialChannel]

theorem C2_evalLow_enabled_transitions_witness :
    evalLow 25 5 true 20 initialChannel =
      { initialChannel with events := initialChannel.events + 1, latch := true, state := EnvState.outsideLimit } :=
  (C2_evalLow_enabled_transitions 25 5 20 initialChannel).1.1 rfl (by norm_num)

/-- C3: each of the four event accessors computes delta = counter minus the
last snapshot, moves the snapshot to the counter, and returns the latch flag
coerced to 0/1 in latch mode or the delta otherwise (they all refine
`accessorSpec`); with latch mode false, two Normal→OutsideLimit crossings
between two consecutive calls (readings 46, 40, 40, 46 against threshold 45,
hysteresis 5) make the second call return 2, in latch mode the same scenario
returns 1, and a later call after the channel has returned to Normal
(readings 40, 40) returns 0. -/
theorem C3_accessor_semantics :
    (∀ (latchMode : Bool) (c : Channel), channelEvents latchMode c = accessorSpec latchMode c) ∧
    (∀ (cfg : ConfigData) (m : EnvMonitors),
      environment_high_temperature_events cfg m =
        ((accessorSpec cfg.highLatch m.high).1, { m with high := (accessorSpec cfg.highLatch m.high).2 }) ∧
      environment_low_temperature_events cfg m =
        ((accessorSpec cfg.lowLatch m.low).1, { m with low := (accessorSpec cfg.lowLatch m.low).2 }) ∧
      environment_high_humidity_events cfg m =
        ((accessorSpec cfg.humhighLatch m.humhigh).1, { m with humhigh := (accessorSpec cfg.humhighLatch m.humhigh).2 }) ∧
      environment_low_humidity_events cfg m =
        ((accessorSpec cfg.humlowLatch m.humlow).1, { m with humlow := (accessorSpec cfg.humlowLatch m.humlow).2 })) ∧
    (channelEvents false (([46, 40, 40, 46] : List ℚ).foldl (fun ch w => evalHigh 45 5 true w ch) initialChannel)).1 = 2 ∧
    (channelEvents true (([46, 40, 40, 46] : List ℚ).foldl (fun ch w => evalHigh 45 5 true w ch) initialChannel)).1 = 1 ∧
    (channelEvents true (([40, 40] : List ℚ).foldl (fun ch w => evalHigh 45 5 true w ch)
      (channelEvents true (([46, 40, 40, 46] : List ℚ).foldl (fun ch w => evalHigh 45 5 true w ch) initialChannel)).2)).1 = 0 := by
  refine ⟨?_, ?_, ?_, ?_, ?_⟩
  · intro latchMode c; rfl
  · intro cfg m
    refine ⟨rfl, rfl, rfl, rfl⟩
  · norm_num [channelEvents, evalHigh, initialChannel]
  · norm_num [channelEvents, evalHigh, initialChannel]
  · norm_num [channelEvents, evalHigh, initialChannel]

/-- C4: when the enable flag is false an evaluate step changes nothing on the
channel (state, counter and latch are all frozen, so a set latch stays set),
and an enabled step taken after any disabled step resumes from the frozen
channel exactly as it would have from the original one. -/
theorem C4_disabled_freezes (T T2 H H2 v v2 : ℚ) (c : Channel) :
    evalHigh T H false v c = c ∧
    evalLow T H false v c = c ∧
    (evalHigh T H false v c).latch = c.latch ∧
    (evalLow T H false v c).latch = c.latch ∧
    evalHigh T2 H2 true v2 (evalHigh T H false v c) = evalHigh T2 H2 true v2 c ∧
    evalLow T2 H2 true v2 (evalLow T H false v c) = evalLow T2 H2 true v2 c := by
  have hH : evalHigh T H false v c = c := by simp [evalHigh]
  have hL : evalLow T H false v c = c := by simp [evalLow]
  exact ⟨hH, hL, by rw [hH], by rw [hL], by rw [hH], by rw [hL]⟩

/-- C7: calling an event accessor twice with no intervening evaluate step
makes the second call return 0 when the channel's latch mode is false and the
latch's current value — which the first call does not change — when the latch
mode is true, on each of the four channels. -/
theorem C7_second_accessor_call (cfg : ConfigData) (m : EnvMonitors) :
    ((environment_high_temperature_events cfg (environment_high_temperature_events cfg m).2).1
       = if cfg.highLatch then (if m.high.latch then 1 else 0) else 0) ∧
    ((environment_high_temperature_events cfg m).2.high.latch = m.high.latch) ∧
    ((environment_low_temperature_events cfg (environment_low_temperature_events cfg m).2).1
       = if cfg.lowLatch then (if m.low.latch then 1 else 0) else 0) ∧
    ((environment_low_temperature_events cfg m).2.low.latch = m.low.latch) ∧
    ((environment_high_humidity_events cfg (environment_high_humidity_events cfg m).2).1
       = if cfg.humhighLatch then (if m.humhigh.latch then 1 else 0) else 0) ∧
    ((environment_high_humidity_events cfg m).2.humhigh.latch = m.humhigh.latch) ∧
    ((environment_low_humidity_events cfg (environment_low_humidity_events cfg m).2).1
       = if cfg.humlowLatch then (if m.humlow.latch then 1 else 0) else 0) ∧
    ((environment_low_humidity_events cfg m).2.humlow.latch = m.humlow.latch) := by
  refine ⟨?_, rfl, ?_, rfl, ?_, rfl, ?_, rfl⟩ <;>
    simp [environment_high_temperature_events, environment_low_temperature_events,
      environment_high_humidity_events, environment_low_humidity_events, channelEvents]

/-- The default configuration with the temperature-high channel enabled
(its latch mode keeps the default, true). -/
def defaultHighEnabled : ConfigData :=
  { environmentConfigDefault with highEnable := true }

/-- The default configuration with the temperature-high channel enabled and
its latch mode turned off. -/
def defaultHighEnabledNoLatch : ConfigData :=
  { environmentConfigDefault with highEnable := true, highLatch := false }

/-- Fold a list of temperature readings through `evaluate_user_environment`
under a fixed configuration, from the initial statics; the humidity reading
is held at 0 (the humidity channels stay disabled here). -/
def runTemperature (cfg : ConfigData) (vs : List ℚ) : EnvMonitors :=
  vs.foldl
    (fun m v => evaluate_user_environment cfg { Temperature := v, Humidity := 0 } m)
    initialMonitors

/-- C5 counterexample: enable the default temperature-high channel
(threshold 45, hysteresis 5) and evaluate [30, 46, 44, 40, 39].  The reading
40 satisfies 40 ≤ 45 - 5 and clears the latch, so the accessor called once at
the end under the default latch mode (true) returns 0 — not 1 as the claim
states. -/
theorem C5_counterexample :
    (environment_high_temperature_events defaultHighEnabled
        (runTemperature defaultHighEnabled [30, 46, 44, 40, 39])).1 = 0 ∧
    ¬ (environment_high_temperature_events defaultHighEnabled
        (runTemperature defaultHighEnabled [30, 46, 44, 40, 39])).1 = 1 := by
  norm_num [runTemperature, evaluate_user_environment, evalHigh, evalLow,
    initialMonitors, initialChannel, environment_high_temperature_events,
    channelEvents, defaultHighEnabled, environmentConfigDefault]

/-- C5 amended: from the default configuration with the temperature-high
channel enabled (threshold 45, hysteresis 5), evaluating [30, 46, 44, 40, 39]
gives the counter sequence [0, 1, 1, 1, 1], and a single accessor call at the
end returns 1 when latch mode is false and 0 when latch mode is true (the
latch was cleared when the reading 40 passed the hysteresis point 40). -/
theorem C5_default_scenario :
    (runTemperature defaultHighEnabled [30]).high.events = 0 ∧
    (runTemperature defaultHighEnabled [30, 46]).high.events = 1 ∧
    (runTemperature defaultHighEnabled [30, 46, 44]).high.events = 1 ∧
    (runTemperature defaultHighEnabled [30, 46, 44, 40]).high.events = 1 ∧
    (runTemperature defaultHighEnabled [30, 46, 44, 40, 39]).high.events = 1 ∧
    (environment_high_temperature_events defaultHighEnabledNoLatch
        (runTemperature defaultHighEnabledNoLatch [30, 46, 44, 40, 39])).1 = 1 ∧
    (environment_high_temperature_events defaultHighEnabled
        (runTemperature defaultHighEnabled [30, 46, 44, 40, 39])).1 = 0 := by
  norm_num [runTemperature, evaluate_user_environment, evalHigh, evalLow,
    initialMonitors, initialChannel, environment_high_temperature_events,
    channelEvents, defaultHighEnabled, defaultHighEnabledNoLatch,
    environmentConfigDefault]

/-- C6: the claim says every monitor starts in the Unknown state.  In the
source the enum comment marks `UNKNOWN` as the initial state, but all four
static state variables are initialized to `NORMAL`, so no monitor ever starts
in (or reaches) Unknown; the Unknown pass-through in
`evaluate_user_environment` itself does behave exactly as the claim
describes, treating Unknown as Normal before any comparison. -/
theorem C6_initial_state_is_normal :
    initialChannel.state = EnvState.normal ∧
    ¬ initialChannel.state = EnvState.unknown ∧
    ¬ initialMonitors.high.state = EnvState.unknown ∧
    ¬ initialMonitors.low.state = EnvState.unknown ∧
    ¬ initialMonitors.humhigh.state = EnvState.unknown ∧
    ¬ initialMonitors.humlow.state = EnvState.unknown ∧
    (∀ (T H v : ℚ) (c : Channel),
      evalHigh T H true v { c with state := EnvState.unknown } =
        evalHigh T H true v { c with state := EnvState.normal }) ∧
    (∀ (T H v : ℚ) (c : Channel),
      evalLow T H true v { c with state := EnvState.unknown } =
        evalLow T H true v { c with state := EnvState.normal }) := by
  refine ⟨rfl, by simp [initialChannel], by simp [initialMonitors, initialChannel],
    by simp [initialMonitors, initialChannel], by simp [initialMonitors, initialChannel],
    by simp [initialMonitors, initialChannel], ?_, ?_⟩
  · intro T H v c; simp only [evalHigh]; split_ifs <;> rfl
  · intro T H v c; simp only [evalLow]; split_ifs <;> rfl

/-- C8: an enabled High-direction monitor in Normal, evaluated any positive
number of times at one constant value at or above the threshold, counts
exactly one event (on the first evaluation) and then stays in OutsideLimit
with the counter unchanged. -/
theorem C8_constant_value_counts_once (T H v : ℚ) (c : Channel)
    (hs : c.state = EnvState.normal) (hv : v ≥ T) :
    ∀ n : Nat, 1 ≤ n →
      ((evalHigh T H true v)^[n] c).events = c.events + 1 ∧
      ((evalHigh T H true v)^[n] c).state = EnvState.outsideLimit := by
  intro n hn
  obtain ⟨k, rfl⟩ : ∃ k, n = k + 1 := ⟨n - 1, by omega⟩
  have h1 : evalHigh T H true v c =
      { c with events := c.events + 1, latch := true, state := EnvState.outsideLimit } := by
    obtain ⟨s, ev, el, l⟩ := c
    simp only at hs
    subst hs
    simp [evalHigh, hv]
  have hfix : evalHigh T H true v
      { c with events := c.events + 1, latch := true, state := EnvState.outsideLimit } =
      { c with events := c.events + 1, latch := true, state := EnvState.outsideLimit } := by
    simp [evalHigh, not_lt.mpr hv]
  rw [Function.iterate_succ_apply, h1, Function.iterate_fixed hfix]
  exact ⟨rfl, rfl⟩

theorem C8_constant_value_counts_once_witness :
    initialChannel.state = EnvState.normal ∧ (46 : ℚ) ≥ 45 ∧ 1 ≤ 3 ∧
    ((evalHigh 45 5 true 46)^[3] initialChannel).events = initialChannel.events + 1 ∧
    ((evalHigh 45 5 true 46)^[3] initialChannel).state = EnvState.outsideLimit :=
  ⟨rfl, by norm_num, by norm_num,
    C8_constant_value_counts_once 45 5 46 initialChannel rfl (by norm_num) 3 (by norm_num)⟩

lemma evalHigh_events_delta (T H : ℚ) (e : Bool) (v : ℚ) (c : Channel) :
    (evalHigh T H e v c).events = c.events ∨ (evalHigh T H e v c).events = c.events + 1 := by
  obtain ⟨s, ev, el, l⟩ := c
  cases e <;> cases s <;> simp [evalHigh] <;> split_ifs <;> simp

lemma evalLow_events_delta (T H : ℚ) (e : Bool) (v : ℚ) (c : Channel) :
    (evalLow T H e v c).events = c.events ∨ (evalLow T H e v c).events = c.events + 1 := by
  obtain ⟨s, ev, el, l⟩ := c
  cases e <;> cases s <;> simp [evalLow] <;> split_ifs <;> simp

/-- C9: one evaluate step changes each channel's event counter by a delta in
{0, 1} (it either keeps it or increments it by exactly one), so the counter
never decreases across evaluate steps, whatever the reading and the current
configuration. -/
theorem C9_counter_monotone_delta (cfg : ConfigData) (env : Environment) (m : EnvMonitors) :
    (((evaluate_user_environment cfg env m).high.events = m.high.events ∨
      (evaluate_user_environment cfg env m).high.events = m.high.events + 1) ∧
     m.high.events ≤ (evaluate_user_environment cfg env m).high.events) ∧
    (((evaluate_user_environment cfg env m).low.events = m.low.events ∨
      (evaluate_user_environment cfg env m).low.events = m.low.events + 1) ∧
     m.low.events ≤ (evaluate_user_environment cfg env m).low.events) ∧
    (((evaluate_user_environment cfg env m).humhigh.events = m.humhigh.events ∨
      (evaluate_user_environment cfg env m).humhigh.events = m.humhigh.events + 1) ∧
     m.humhigh.events ≤ (evaluate_user_environment cfg env m).humhigh.events) ∧
    (((evaluate_user_environment cfg env m).humlow.events = m.humlow.events ∨
      (evaluate_user_environment cfg env m).humlow.events = m.humlow.events + 1) ∧
     m.humlow.events ≤ (evaluate_user_environment cfg env m).humlow.events) := by
  have h1 := evalHigh_events_delta cfg.highThreshold cfg.hysteresis cfg.highEnable
    env.Temperature m.high
  have h2 := evalLow_events_delta cfg.lowThreshold cfg.hysteresis cfg.lowEnable
    env.Temperature m.low
  have h3 := evalHigh_events_delta cfg.humhighThreshold cfg.humhysteresis cfg.humhighEnable
    env.Humidity m.humhigh
  have h4 := evalLow_events_delta cfg.humlowThreshold cfg.humhysteresis cfg.humlowEnable
    env.Humidity m.humlow
  refine ⟨⟨h1, ?_⟩, ⟨h2, ?_⟩, ⟨h3, ?_⟩, ⟨h4, ?_⟩⟩
  · rw [show (evaluate_user_environment cfg env m).high = evalHigh cfg.highThreshold cfg.hysteresis cfg.highEnable env.Temperature m.high from rfl]
    rcases h1 with h | h <;> omega
  · rw [show (evaluate_user_environment cfg env m).low = evalLow cfg.lowThreshold cfg.hysteresis cfg.lowEnable env.Temperature m.low from rfl]
    rcases h2 with h | h <;> omega
  · rw [show (evaluate_user_environment cfg env m).humhigh = evalHigh cfg.humhighThreshold cfg.humhysteresis cfg.humhighEnable env.Humidity m.humhigh from rfl]
    rcases h3 with h | h <;> omega
  · rw [show (evaluate_user_environment cfg env m).humlow = evalLow cfg.humlowThreshold cfg.humhysteresis cfg.humlowEnable env.Humidity m.humlow from rfl]
    rcases h4 with h | h <;> omega

/-- Channel configurations reachable from the initial statics by evaluate
steps, under an arbitrary threshold, hysteresis, enable flag and reading at
each step and in either direction. -/
inductive ReachableChannel : Channel → Prop
  | init : ReachableChannel initialChannel
  | stepHigh (T H : ℚ) (e : Bool) (v : ℚ) (c : Channel) :
      ReachableChannel c → ReachableChannel (evalHigh T H e v c)
  | stepLow (T H : ℚ) (e : Bool) (v : ℚ) (c : Channel) :
      ReachableChannel c → ReachableChannel (evalLow T H e v c)

lemma latchInvariant_evalHigh (T H : ℚ) (e : Bool) (v : ℚ) (c : Channel)
    (h : c.latch = true ↔ (c.state = EnvState.outsideLimit ∨ c.state = EnvState.insideLimit)) :
    (evalHigh T H e v c).latch = true ↔
      ((evalHigh T H e v c).state = EnvState.outsideLimit ∨
       (evalHigh T H e v c).state = EnvState.insideLimit) := by
  obtain ⟨s, ev, el, l⟩ := c
  cases e <;> cases s <;> simp_all [evalHigh] <;> split_ifs <;> simp_all

lemma latchInvariant_evalLow (T H : ℚ) (e : Bool) (v : ℚ) (c : Channel)
    (h : c.latch = true ↔ (c.state = EnvState.outsideLimit ∨ c.state = EnvState.insideLimit)) :
    (evalLow T H e v c).latch = true ↔
      ((evalLow T H e v c).state = EnvState.outsideLimit ∨
       (evalLow T H e v c).state = EnvState.insideLimit) := by
  obtain ⟨s, ev, el, l⟩ := c
  cases e <;> cases s <;> simp_all [evalLow] <;> split_ifs <;> simp_all

/-- C10: in every channel reachable from the initial statics (state Normal,
latch false) by evaluate steps under arbitrary readings and configurations,
the latch flag is set exactly when the state is OutsideLimit or InsideLimit. -/
theorem C10_latch_iff_outside_or_inside (c : Channel) (h : ReachableChannel c) :
    c.latch = true ↔ (c.state = EnvState.outsideLimit ∨ c.state = EnvState.insideLimit) := by
  induction h with
  | init => simp [initialChannel]
  | stepHigh T H e v c hc ih => exact latchInvariant_evalHigh T H e v c ih
  | stepLow T H e v c hc ih => exact latchInvariant_evalLow T H e v c ih

theorem C10_latch_iff_outside_or_inside_witness :
    ((evalHigh 45 5 true 46 initialChannel).latch = true ↔
      ((evalHigh 45 5 true 46 initialChannel).state = EnvState.outsideLimit ∨
       (evalHigh 45 5 true 46 initialChannel).state = EnvState.insideLimit)) :=
  C10_latch_iff_outside_or_inside (evalHigh 45 5 true 46 initialChannel)
    (ReachableChannel.stepHigh 45 5 true 46 initialChannel ReachableChannel.init)
